import Mathlib

/-!
# Verification of `bookkeeper`'s SQLite repository

A shallow embedding of `src/bookkeeper/repository/sqlite_repository.py`:
the `SQLiteRepository` generic class (constructor, `add`, `get`, `get_all`,
`update`, `delete`, `_generate_object`, `_resolve_type`) together with the
parts of its external collaborators that the repository's behaviour depends
on: Python's class hierarchy as consulted by `issubclass`, the `sqlite3`
driver's default `datetime`/`date` adapters (ISO-8601 text), Python's
`datetime.fromisoformat` / `date.fromisoformat` parsers, and the SQLite
engine viewed as a row store with the syntax checks the generated SQL can
trip over.

Machine integers do not overflow in any code path modelled here (Python
integers are unbounded and SQLite stores them as 64-bit, far above every
value the repository produces), so `Int`/`Nat` are used directly.
-/

namespace Bookkeeper

/-! ## Python classes and type annotations

`_resolve_type` receives the annotation of a dataclass field and probes it
with `issubclass(C, obj_type)` for `C` among `str`, `int`, `float`,
`datetime`, `UnionType`.  We model the classes that can appear and the
subclass facts Python guarantees: every class is a subclass of `object`,
`bool` is a subclass of `int`, and `datetime` is a subclass of `date`.
-/

/-- The Python classes relevant to the repository's type probing. -/
inductive PyClass where
  | str | int | float | bool | datetime | date | object
  | listCls | noneType | unionTypeCls
  | custom (n : String)
  deriving DecidableEq, Repr

/-- Model of Python's plain-class `issubclass`: `isSubclass a b` models Python's `issubclass(a, b)` for plain classes:
reflexivity, everything below `object`, `bool <: int`, `datetime <: date`. -/
def isSubclass (a b : PyClass) : Bool :=
  a == b || b == .object || (a == .bool && b == .int)
    || (a == .datetime && b == .date)

/-- A type annotation: either a plain class, or a PEP-604 union `X | Y | ...`
(the only non-class annotations the repository's fields can carry).  A union
is kept as its argument list, which is also what `typing.get_args` returns. -/
inductive PyAnnot where
  | cls (c : PyClass)
  | union (args : List PyClass)
  deriving DecidableEq, Repr

/-- Model of `issubclass` against an annotation: `issubclassA c t` models Python 3.10+ `issubclass(c, t)` where `t` may be
a plain class, a union (true iff subclass of some member), or — after
`get_args` — a tuple of classes (same any-member rule; an empty tuple makes
every test false). -/
def issubclassA (c : PyClass) : PyAnnot → Bool
  | .cls b => isSubclass c b
  | .union args => args.any (isSubclass c)

/-- Model of `typing.get_args`: a union yields its argument tuple, a plain class
yields the empty tuple. -/
def getArgs : PyAnnot → List PyClass
  | .cls _ => []
  | .union args => args

/-- Embedding of `SQLiteRepository._resolve_type` (sqlite_repository.py:128-144), the
semantic-type → column-type mapping:

    if issubclass(UnionType, obj_type): obj_type = get_args(obj_type)
    if issubclass(str, obj_type): return 'TEXT'
    if issubclass(int, obj_type): return 'INTEGER'
    if issubclass(float, obj_type): return 'REAL'
    if issubclass(datetime, obj_type): return 'TIMESTAMP'
    return 'TEXT'

Each probe asks whether the probe class is a subclass of the annotation. -/
def resolveType (objType : PyAnnot) : String :=
  let objType :=
    if issubclassA .unionTypeCls objType then PyAnnot.union (getArgs objType)
    else objType
  if issubclassA .str objType then "TEXT"
  else if issubclassA .int objType then "INTEGER"
  else if issubclassA .float objType then "REAL"
  else if issubclassA .datetime objType then "TIMESTAMP"
  else "TEXT"

/-! ## Dates, datetimes and their ISO-8601 text codec

`add` hands field values to the `sqlite3` driver, whose default adapters
turn a `datetime.date` into `val.isoformat()` (`"YYYY-MM-DD"`) and a
`datetime.datetime` into `val.isoformat(" ")`
(`"YYYY-MM-DD HH:MM:SS[.ffffff]"`, the fraction present iff
`microsecond != 0`).  `_generate_object` decodes stored text with
`datetime.fromisoformat` / `date.fromisoformat`.  We model both sides at
the character level. -/

/-- A Python `datetime.date` value. -/
structure PyDate where
  year : Nat
  month : Nat
  day : Nat
  deriving DecidableEq, Repr

/-- A naive Python `datetime.datetime` value. -/
structure PyDatetime where
  year : Nat
  month : Nat
  day : Nat
  hour : Nat
  minute : Nat
  second : Nat
  microsecond : Nat
  deriving DecidableEq, Repr

/-- Gregorian leap-year rule, as in Python's `calendar.isleap`. -/
def isLeapYear (y : Nat) : Bool :=
  y % 4 == 0 && (y % 100 != 0 || y % 400 == 0)

/-- Length of a month, as validated by the `datetime.date` constructor. -/
def daysInMonth (y m : Nat) : Nat :=
  if m = 2 then (if isLeapYear y then 29 else 28)
  else if m = 4 ∨ m = 6 ∨ m = 9 ∨ m = 11 then 30
  else 31

/-- The range checks performed by the `datetime.date` constructor. -/
def PyDate.Valid (d : PyDate) : Prop :=
  1 ≤ d.year ∧ d.year ≤ 9999 ∧ 1 ≤ d.month ∧ d.month ≤ 12
    ∧ 1 ≤ d.day ∧ d.day ≤ daysInMonth d.year d.month

instance : DecidablePred PyDate.Valid := fun d => by
  unfold PyDate.Valid; infer_instance

/-- The range checks performed by the `datetime.datetime` constructor. -/
def PyDatetime.Valid (t : PyDatetime) : Prop :=
  PyDate.Valid ⟨t.year, t.month, t.day⟩
    ∧ t.hour ≤ 23 ∧ t.minute ≤ 59 ∧ t.second ≤ 59 ∧ t.microsecond ≤ 999999

instance : DecidablePred PyDatetime.Valid := fun t => by
  unfold PyDatetime.Valid; infer_instance

/-- The decimal digit characters `'0'..'9'` (argument taken mod-10-like:
only values below ten are ever supplied). -/
def digitChar : Nat → Char
  | 0 => '0' | 1 => '1' | 2 => '2' | 3 => '3' | 4 => '4'
  | 5 => '5' | 6 => '6' | 7 => '7' | 8 => '8' | _ => '9'

/-- Numeric value of a digit character. -/
def digitVal (c : Char) : Nat := c.toNat - 48

/-- Print of `n` in exactly `k` decimal digits, most significant first —
the zero-padded fields of `%04d`/`%02d`/`%06d` in CPython's `isoformat`. -/
def padDigits : Nat → Nat → List Char
  | 0, _ => []
  | k + 1, n => padDigits k (n / 10) ++ [digitChar (n % 10)]

/-- One step of decimal accumulation while parsing digits. -/
def accDigit (a : Nat) (c : Char) : Nat := a * 10 + digitVal c

/-- Parse a block of decimal digit characters (as `fromisoformat` does for
each fixed-width numeric field); `none` on any non-digit. -/
def parseDigits (cs : List Char) : Option Nat :=
  if cs.all Char.isDigit then some (cs.foldl accDigit 0) else none

/-- Two-digit zero-padded field (`%02d`). -/
def pad2 (n : Nat) : List Char := padDigits 2 n

/-- Four-digit zero-padded field (`%04d`). -/
def pad4 (n : Nat) : List Char := padDigits 4 n

/-- Six-digit zero-padded field (`%06d`). -/
def pad6 (n : Nat) : List Char := padDigits 6 n

/-- Model of `date.isoformat()`: `"YYYY-MM-DD"` — what the sqlite3 default
`date` adapter stores. -/
def PyDate.isoformat (d : PyDate) : List Char :=
  pad4 d.year ++ '-' :: pad2 d.month ++ '-' :: pad2 d.day

/-- Model of `datetime.isoformat(" ")`: `"YYYY-MM-DD HH:MM:SS"`, with `".ffffff"`
appended iff `microsecond != 0` — what the sqlite3 default `datetime`
adapter stores. -/
def PyDatetime.isoformat (t : PyDatetime) : List Char :=
  pad4 t.year ++ '-' :: pad2 t.month ++ '-' :: pad2 t.day
    ++ ' ' :: pad2 t.hour ++ ':' :: pad2 t.minute ++ ':' :: pad2 t.second
    ++ (if t.microsecond = 0 then [] else '.' :: pad6 t.microsecond)

/-- Model of `date.fromisoformat`: accepts exactly `"YYYY-MM-DD"`, then runs the
`date` constructor's range checks; anything else raises (modelled `none`). -/
def dateFromIsoformat (cs : List Char) : Option PyDate :=
  match cs with
  | [y1, y2, y3, y4, s1, m1, m2, s2, d1, d2] =>
    if s1 = '-' ∧ s2 = '-' then
      match parseDigits [y1, y2, y3, y4], parseDigits [m1, m2],
          parseDigits [d1, d2] with
      | some y, some m, some d =>
        if (PyDate.mk y m d).Valid then some ⟨y, m, d⟩ else none
      | _, _, _ => none
    else none
  | _ => none

/-- Model of `datetime.fromisoformat` on the shapes the adapter can have stored:
`"YYYY-MM-DD"` (midnight), or the date, one separator character, and
`"HH:MM:SS"` with an optional 3- or 6-digit fraction.  The constructor's
range checks run at the end; malformed text raises (modelled `none`). -/
def datetimeFromIsoformat (cs : List Char) : Option PyDatetime :=
  match cs with
  | y1 :: y2 :: y3 :: y4 :: s1 :: m1 :: m2 :: s2 :: d1 :: d2 :: rest =>
    if s1 = '-' ∧ s2 = '-' then
      match parseDigits [y1, y2, y3, y4], parseDigits [m1, m2],
          parseDigits [d1, d2] with
      | some y, some m, some d =>
        match rest with
        | [] =>
          if (PyDatetime.mk y m d 0 0 0 0).Valid
          then some ⟨y, m, d, 0, 0, 0, 0⟩ else none
        | _sep :: h1 :: h2 :: c1 :: mi1 :: mi2 :: c2 :: e1 :: e2 :: frest =>
          if c1 = ':' ∧ c2 = ':' then
            match parseDigits [h1, h2], parseDigits [mi1, mi2],
                parseDigits [e1, e2] with
            | some hh, some mi, some ss =>
              match frest with
              | [] =>
                if (PyDatetime.mk y m d hh mi ss 0).Valid
                then some ⟨y, m, d, hh, mi, ss, 0⟩ else none
              | '.' :: ds =>
                if ds.length = 6 ∨ ds.length = 3 then
                  match parseDigits ds with
                  | some f =>
                    let f := if ds.length = 3 then f * 1000 else f
                    if (PyDatetime.mk y m d hh mi ss f).Valid
                    then some ⟨y, m, d, hh, mi, ss, f⟩ else none
                  | none => none
                else none
              | _ => none
            | _, _, _ => none
          else none
        | _ => none
      | _, _, _ => none
    else none
  | _ => none

/-! ## Values, objects, the row store and the repository -/

/-- A Python value of the kinds a record field can hold here.  A `float`
is carried as its IEEE-754 bit pattern: the repository never computes with
floats, it only passes them through, so the payload is opaque. -/
inductive PyVal where
  | int (i : Int)
  | str (s : List Char)
  | float (bits : Nat)
  | datetime (t : PyDatetime)
  | date (d : PyDate)
  | pyNone
  deriving DecidableEq, Repr

/-- The `sqlite3` driver's default parameter adapters: a `datetime` is
stored as `isoformat(" ")` text, a `date` as `isoformat()` text; `int`,
`str`, `float` and `None` pass through. -/
def adaptVal : PyVal → PyVal
  | .datetime t => .str t.isoformat
  | .date d => .str d.isoformat
  | v => v

/-- A Python object as the repository reads it through `getattr`: the `pk`
attribute (`none` models an object with no `pk` attribute at all, since the
code reads it as `getattr(obj, 'pk', None)`) and the remaining attributes. -/
structure PyObj where
  pk : Option Int
  attrs : List (String × PyVal)
  deriving DecidableEq, Repr

/-- Attribute lookup on the non-`pk` attributes; `none` models the
`AttributeError` a plain `getattr(obj, x)` raises on a missing name. -/
def PyObj.getattr (o : PyObj) (name : String) : Option PyVal :=
  (o.attrs.find? (fun p => p.1 == name)).map Prod.snd

/-- A repository instance after a successful `__init__`: the lowercased
table name and the ordered field-name → annotation map with `pk` popped. -/
structure Repo where
  tableName : String
  fields : List (String × PyAnnot)
  deriving DecidableEq, Repr

/-- The backing SQLite table: rows of (rowid = `pk`, column values in
descriptor order), listed in the order a plain table scan returns them
(insertion order). -/
structure Store where
  rows : List (Int × List PyVal)
  deriving DecidableEq, Repr

/-- SQLite's rowid choice for an `INTEGER PRIMARY KEY` column omitted from
the INSERT: one more than the largest rowid in use (1 on an empty table). -/
def Store.freshId (st : Store) : Int :=
  (st.rows.foldl (fun acc r => max acc r.1) 0) + 1

/-- The exceptions the repository raises, and the store-layer errors it
lets propagate unchanged. -/
inductive RepoError where
  /-- `ValueError(f'Trying to add object {obj} with filled `pk` attribute')`
  — the message interpolates the offending object, carried here. -/
  | addFilledPk (obj : PyObj)
  /-- `ValueError('Trying to update object without `pk` attribute')`. -/
  | updateWithoutPk
  /-- `ValueError('Trying to update object with unknown primary key')`. -/
  | updateUnknownPk
  /-- `ValueError('Trying to delete object with unknown primary key')`. -/
  | deleteUnknownPk
  /-- `KeyError` from `self.fields.pop('pk')` on a type without `pk`. -/
  | keyErrorPk
  /-- `AttributeError` from `getattr(obj, field)` on a missing field. -/
  | attributeError
  /-- `sqlite3.OperationalError`: the store rejected a generated statement. -/
  | operationalError
  /-- `ValueError` from `fromisoformat` on malformed stored temporal text,
  or a non-text value handed to it. -/
  | malformedTemporal
  deriving DecidableEq, Repr

/-- A Python class as `__init__` introspects it: its `__name__` and the
`get_annotations` result, an ordered field-name → annotation map. -/
structure PyClassDef where
  name : String
  annots : List (String × PyAnnot)
  deriving DecidableEq, Repr

/-- Concatenation with `sep` interposed, Python's `sep.join(...)`. -/
def joinWith (sep : List Char) : List (List Char) → List Char
  | [] => []
  | [x] => x
  | x :: xs => x ++ sep ++ joinWith sep xs

/-- The text between the parentheses of the generated
`CREATE TABLE IF NOT EXISTS` (sqlite_repository.py:36-39):
`", ".join(f"{name} {self._resolve_type(type)}" ...)` followed by the
literal `", pk INTEGER PRIMARY KEY "`. -/
def createTableColumnsText (fields : List (String × PyAnnot)) : List Char :=
  joinWith (", ".toList)
      (fields.map (fun p => p.1.toList ++ ' ' :: (resolveType p.2).toList))
    ++ (", pk INTEGER PRIMARY KEY ".toList)

/-- Comma-separated items, as SQLite's parser cuts up a column-def list. -/
def splitOnComma : List Char → List (List Char)
  | [] => [[]]
  | c :: cs =>
    if c = ',' then [] :: splitOnComma cs
    else
      match splitOnComma cs with
      | [] => [[c]]
      | g :: gs => (c :: g) :: gs

/-- Strip spaces from both ends. -/
def trimSpaces (cs : List Char) : List Char :=
  ((cs.dropWhile (· == ' ')).reverse.dropWhile (· == ' ')).reverse

/-- The aspect of SQLite's CREATE TABLE grammar that the generated
statement can violate: every comma-separated item between the parentheses
must be a nonempty column definition.  With an empty field map the text
starts `", pk ..."`, whose first item is empty — `OperationalError`. -/
def sqliteAcceptsColumnsText (cs : List Char) : Bool :=
  (splitOnComma cs).all (fun item => !(trimSpaces item).isEmpty)

/-- Embedding of `SQLiteRepository.__init__` (sqlite_repository.py:19-43): derive the
table name and the field map — `pop('pk')` raises `KeyError` when the type
has no `pk` annotation — then execute the generated
`CREATE TABLE IF NOT EXISTS`, whose store-layer syntax error propagates.
A `Repo` exists only when construction succeeds. -/
def SQLiteRepository.init (cls : PyClassDef) : Except RepoError Repo :=
  if (cls.annots.find? (fun p => p.1 == "pk")).isNone then
    .error .keyErrorPk
  else
    let fields := cls.annots.filter (fun p => p.1 != "pk")
    if sqliteAcceptsColumnsText (createTableColumnsText fields) then
      .ok { tableName := cls.name.toLower, fields := fields }
    else
      .error .operationalError

/-- Embedding of `values = [getattr(obj, x) for x in self.fields]` — the record's field
values read in descriptor order (`add`, line 49; `update`, line 90);
`none` models the `AttributeError` on a missing field. -/
def encodeVals (fields : List (String × PyAnnot)) (obj : PyObj) :
    Option (List PyVal) :=
  match fields with
  | [] => some []
  | f :: fs => do
    let v ← obj.getattr f.1
    let vs ← encodeVals fs obj
    pure (v :: vs)

/-- One column value decoded against its declared annotation, as the loop
body of `_generate_object` (sqlite_repository.py:115-122) does: a
`datetime` field parses its text with `datetime.fromisoformat`, a `date`
field with `date.fromisoformat`, everything else passes through unchanged;
a parse failure, or a non-text value handed to `fromisoformat`, raises. -/
def decodeField (fieldType : PyAnnot) (v : PyVal) : Option PyVal := do
  let v ←
    if fieldType = PyAnnot.cls .datetime then
      match v with
      | .str s => (datetimeFromIsoformat s).map PyVal.datetime
      | _ => none
    else pure v
  if fieldType = PyAnnot.cls .date then
    match v with
    | .str s => (dateFromIsoformat s).map PyVal.date
    | _ => none
  else pure v

/-- Embedding of `zip(self.fields.keys(), values[1:])` with per-field decoding: pairs
the descriptor fields with the row values positionally (`zip` stops at the
shorter side) and decodes each. -/
def decodeRowVals : List (String × PyAnnot) → List PyVal →
    Option (List (String × PyVal))
  | _, [] => some []
  | [], _ => some []
  | f :: fs, v :: vs => do
    let v' ← decodeField f.2 v
    let rest ← decodeRowVals fs vs
    pure ((f.1, v') :: rest)

/-- Embedding of `_generate_object` (sqlite_repository.py:108-126): decode the row's
field values in descriptor order, build the record from them, then set its
`pk` from the row's first column. -/
def generateObject (fields : List (String × PyAnnot))
    (row : Int × List PyVal) : Option PyObj := do
  let args ← decodeRowVals fields row.2
  pure { pk := some row.1, attrs := args }

/-- Embedding of `[self._generate_object(row) for row in rows]` — every row decoded, in
store order. -/
def rowsToObjs (fields : List (String × PyAnnot)) :
    List (Int × List PyVal) → Option (List PyObj)
  | [] => some []
  | r :: rs => do
    let o ← generateObject fields r
    let os ← rowsToObjs fields rs
    pure (o :: os)

/-- Embedding of `add` (sqlite_repository.py:45-58).  Yields the store after the call
and either the raised error or the (mutated) object — `obj.pk` now holds
`cur.lastrowid` — together with the returned `obj.pk` value. -/
def Repo.add (repo : Repo) (st : Store) (obj : PyObj) :
    Store × Except RepoError (PyObj × Option Int) :=
  if obj.pk ≠ some 0 then
    (st, .error (.addFilledPk obj))
  else
    match encodeVals repo.fields obj with
    | none => (st, .error .attributeError)
    | some vals =>
      let rowid := st.freshId
      let st' : Store := ⟨st.rows ++ [(rowid, vals.map adaptVal)]⟩
      let lastrowid : Option Int := some rowid
      let obj' :=
        match lastrowid with
        | some r => { obj with pk := some r }
        | none => obj
      (st', .ok (obj', obj'.pk))

/-- Embedding of `get` (sqlite_repository.py:60-68): fetch the row with the given key;
`None` when absent, otherwise the `_generate_object` decoding, whose
failure on malformed stored text propagates. -/
def Repo.get (repo : Repo) (st : Store) (pk : Int) :
    Except RepoError (Option PyObj) :=
  match st.rows.find? (fun r => r.1 == pk) with
  | none => .ok none
  | some row =>
    match generateObject repo.fields row with
    | some obj => .ok (some obj)
    | none => .error .malformedTemporal

/-- The `WHERE` text `" AND ".join(f"{field} = ?" for field in where)`
built by `get_all` from the filter's own keys (sqlite_repository.py:76). -/
def whereConditionsText (keys : List String) : List Char :=
  joinWith (" AND ".toList) (keys.map (fun k => k.toList ++ (" = ?".toList)))

/-- Whether `name` names a column of the table: `pk` or a descriptor
field. -/
def Repo.isColumn (repo : Repo) (name : String) : Bool :=
  name == "pk" || repo.fields.any (fun p => p.1 == name)

/-- The value of a named column in a row: `pk` is the key column, any
other name reads the positionally matching descriptor field. -/
def columnValue (repo : Repo) (row : Int × List PyVal) (name : String) :
    Option PyVal :=
  if name = "pk" then some (.int row.1)
  else (((repo.fields.map Prod.fst).zip row.2).find?
    (fun p => p.1 == name)).map Prod.snd

/-- Embedding of `get_all` (sqlite_repository.py:70-84).  No filter: every row decoded
in store order.  A filter appends `" WHERE " ++ conditions` to the SELECT;
the store rejects an empty conditions text (`SELECT ... WHERE ` is a
syntax error) and a key naming no column (`no such column`), and otherwise
returns the rows every entry matches by SQL equality, the bound parameters
having gone through the same driver adapters as INSERT parameters. -/
def Repo.get_all (repo : Repo) (st : Store)
    (filt : Option (List (String × PyVal))) : Except RepoError (List PyObj) :=
  match filt with
  | none =>
    match rowsToObjs repo.fields st.rows with
    | some objs => .ok objs
    | none => .error .malformedTemporal
  | some w =>
    if whereConditionsText (w.map Prod.fst) = [] then
      .error .operationalError
    else if w.any (fun kv => !repo.isColumn kv.1) then
      .error .operationalError
    else
      let matching := st.rows.filter
        (fun row => w.all (fun kv => columnValue repo row kv.1 == some (adaptVal kv.2)))
      match rowsToObjs repo.fields matching with
      | some objs => .ok objs
      | none => .error .malformedTemporal

/-- Embedding of `update` (sqlite_repository.py:86-98).  Yields the store after the
call, the caller's object after the call (the code never assigns to it),
and the outcome.  A zero rowcount raises inside the connection's
`with`-block, so the transaction rolls back and the store is unchanged. -/
def Repo.update (repo : Repo) (st : Store) (obj : PyObj) :
    Store × PyObj × Except RepoError Unit :=
  match obj.pk with
  | none => (st, obj, .error .updateWithoutPk)
  | some pkv =>
    match encodeVals repo.fields obj with
    | none => (st, obj, .error .attributeError)
    | some vals =>
      let rowcount := st.rows.countP (fun r => r.1 == pkv)
      let st' : Store :=
        ⟨st.rows.map (fun r => if r.1 == pkv then (r.1, vals.map adaptVal) else r)⟩
      if rowcount = 0 then (st, obj, .error .updateUnknownPk)
      else (st', obj, .ok ())

/-- Embedding of `delete` (sqlite_repository.py:100-106).  Same zero-rowcount contract
as `update`: the raise rolls the single-statement transaction back. -/
def Repo.delete (_repo : Repo) (st : Store) (pk : Int) :
    Store × Except RepoError Unit :=
  let rowcount := st.rows.countP (fun r => r.1 == pk)
  let st' : Store := ⟨st.rows.filter (fun r => r.1 != pk)⟩
  if rowcount = 0 then (st, .error .deleteUnknownPk)
  else (st', .ok ())

/-! ## Well-typed records and the codec round trip -/

/-- A value inhabits a supported field annotation (the five types the
spec's round-trip contract covers); temporal values are constructor-valid,
as every `datetime`/`date` object Python can hand over is. -/
inductive WellTypedVal : PyAnnot → PyVal → Prop where
  | int (i : Int) : WellTypedVal (.cls .int) (.int i)
  | str (s : List Char) : WellTypedVal (.cls .str) (.str s)
  | float (b : Nat) : WellTypedVal (.cls .float) (.float b)
  | datetime {t : PyDatetime} (h : t.Valid) :
      WellTypedVal (.cls .datetime) (.datetime t)
  | date {d : PyDate} (h : d.Valid) : WellTypedVal (.cls .date) (.date d)

/-- Statement that `obj` is an instance of the record type behind the descriptor: its
attributes are exactly the descriptor fields, in declaration order, each
holding a well-typed value. -/
def Instantiates (fields : List (String × PyAnnot)) (obj : PyObj) : Prop :=
  List.Forall₂ (fun (f : String × PyAnnot) (a : String × PyVal) =>
    a.1 = f.1 ∧ WellTypedVal f.2 a.2) fields obj.attrs

/-- Truncation of a datetime to whole seconds. -/
def dropMicroseconds (t : PyDatetime) : PyDatetime := { t with microsecond := 0 }

/-- Value agreement at the precision the round-trip contract promises:
exact everywhere, except that datetimes need only agree to the second. -/
def agreesAtClaimPrecision : PyVal → PyVal → Prop
  | .datetime a, .datetime b => dropMicroseconds a = dropMicroseconds b
  | a, b => a = b

/-! ## Concrete fixtures (the test-suite's `Custom` dataclass) -/

/-- The descriptor `__init__` derives from the tests' `Custom` dataclass:
`{field_int: int, field_str: str, field_datetime: datetime, field_date: date}`
(pk already popped). -/
def customFields : List (String × PyAnnot) :=
  [("field_int", .cls .int), ("field_str", .cls .str),
   ("field_datetime", .cls .datetime), ("field_date", .cls .date)]

/-- A repository over the `Custom` table. -/
def customRepo : Repo := ⟨"custom", customFields⟩

def emptyStore : Store := ⟨[]⟩

def sampleDt : PyDatetime := ⟨2024, 2, 29, 12, 34, 56, 500000⟩

def sampleDate : PyDate := ⟨2023, 3, 14⟩

def sampleAttrs : List (String × PyVal) :=
  [("field_int", .int 1337), ("field_str", .str ("test".toList)),
   ("field_datetime", .datetime sampleDt), ("field_date", .date sampleDate)]

/-- An unpersisted `Custom()` instance (`pk == 0`). -/
def sampleObj : PyObj := ⟨some 0, sampleAttrs⟩

/-- The same record with a filled `pk`. -/
def sampleObjPk5 : PyObj := ⟨some 5, sampleAttrs⟩

/-- The same record with no `pk` attribute at all. -/
def sampleObjNoPk : PyObj := ⟨none, sampleAttrs⟩

/-- A stored row for the sample record under key 1, as the adapters wrote
it. -/
def sampleRow : Int × List PyVal :=
  (1, [.int 1337, .str ("test".toList), .str sampleDt.isoformat,
       .str sampleDate.isoformat])

def oneRowStore : Store := ⟨[sampleRow]⟩

/-- Field values read off `sampleObj` in descriptor order. -/
def sampleVals : List PyVal :=
  [.int 1337, .str ("test".toList), .datetime sampleDt, .date sampleDate]

/-- Stored rows differing in `field_int`, under keys 1 and 2. -/
def rowA : Int × List PyVal :=
  (1, [.int 0, .str ("a".toList), .str sampleDt.isoformat,
       .str sampleDate.isoformat])

def rowB : Int × List PyVal :=
  (2, [.int 3, .str ("b".toList), .str sampleDt.isoformat,
       .str sampleDate.isoformat])

def twoRowStore : Store := ⟨[rowA, rowB]⟩

/-- Decoded records for `rowA`/`rowB`. -/
def objA : PyObj :=
  ⟨some 1, [("field_int", .int 0), ("field_str", .str ("a".toList)),
            ("field_datetime", .datetime sampleDt),
            ("field_date", .date sampleDate)]⟩

def objB : PyObj :=
  ⟨some 2, [("field_int", .int 3), ("field_str", .str ("b".toList)),
            ("field_datetime", .datetime sampleDt),
            ("field_date", .date sampleDate)]⟩

/-- A record type with no `pk` annotation, and one annotating only `pk`. -/
def noPkClass : PyClassDef := ⟨"Custom", [("field_int", .cls .int)]⟩

def onlyPkClass : PyClassDef := ⟨"Custom", [("pk", .cls .int)]⟩

/-! ## Supporting lemmas -/

theorem daysInMonth_le (y m : Nat) : daysInMonth y m ≤ 31 := by
  unfold daysInMonth
  split
  · split <;> omega
  · split <;> omega

theorem digitChar_spec :
    ∀ m, m < 10 → (digitChar m).isDigit = true ∧ digitVal (digitChar m) = m := by
  decide

theorem padDigits_length (k : Nat) : ∀ n, (padDigits k n).length = k := by
  induction k with
  | zero => intro n; rfl
  | succ k ih => intro n; simp [padDigits, ih]

theorem padDigits_all_isDigit (k : Nat) :
    ∀ n, (padDigits k n).all Char.isDigit = true := by
  induction k with
  | zero => intro n; rfl
  | succ k ih =>
    intro n
    simp only [padDigits, List.all_append, ih, Bool.true_and, List.all_cons,
      List.all_nil, Bool.and_true]
    exact (digitChar_spec (n % 10) (Nat.mod_lt n (by norm_num))).1

theorem foldl_padDigits (k : Nat) : ∀ n a, n < 10 ^ k →
    (padDigits k n).foldl accDigit a = a * 10 ^ k + n := by
  induction k with
  | zero =>
    intro n a h
    simp only [padDigits, List.foldl_nil, pow_zero]
    omega
  | succ k ih =>
    intro n a h
    have hdiv : n / 10 < 10 ^ k := by
      rw [Nat.div_lt_iff_lt_mul (by norm_num)]
      calc n < 10 ^ (k + 1) := h
        _ = 10 ^ k * 10 := by ring
    simp only [padDigits, List.foldl_append, ih (n / 10) a hdiv,
      List.foldl_cons, List.foldl_nil, accDigit]
    rw [(digitChar_spec (n % 10) (Nat.mod_lt n (by norm_num))).2, pow_succ,
      ← mul_assoc]
    omega

theorem parseDigits_padDigits {k n : Nat} (h : n < 10 ^ k) :
    parseDigits (padDigits k n) = some n := by
  simp only [parseDigits, padDigits_all_isDigit, if_true,
    foldl_padDigits k n 0 h, zero_mul, zero_add]

theorem pad2_eq (n : Nat) :
    pad2 n = [digitChar (n / 10 % 10), digitChar (n % 10)] := rfl

theorem pad4_eq (n : Nat) :
    pad4 n = [digitChar (n / 10 / 10 / 10 % 10), digitChar (n / 10 / 10 % 10),
      digitChar (n / 10 % 10), digitChar (n % 10)] := rfl

theorem parseDigits_pad2 {n : Nat} (h : n < 100) : parseDigits (pad2 n) = some n :=
  parseDigits_padDigits (by omega)

theorem parseDigits_pad4 {n : Nat} (h : n < 10000) : parseDigits (pad4 n) = some n :=
  parseDigits_padDigits (by omega)

theorem parseDigits_pad6 {n : Nat} (h : n < 1000000) : parseDigits (pad6 n) = some n :=
  parseDigits_padDigits (by omega)

/-- Round trip of the date codec: decoding the adapter-stored text of any
constructor-valid date gives back that date. -/
theorem dateFromIsoformat_isoformat {d : PyDate} (h : d.Valid) :
    dateFromIsoformat d.isoformat = some d := by
  obtain ⟨y, m, dd⟩ := d
  obtain ⟨hy1, hy2, hm1, hm2, hd1, hd2⟩ := h
  dsimp only at hy1 hy2 hm1 hm2 hd1 hd2
  have hle := daysInMonth_le y m
  have hy : y < 10000 := by omega
  have hm : m < 100 := by omega
  have hd : dd < 100 := by omega
  rw [PyDate.isoformat]
  dsimp only
  rw [pad4_eq, pad2_eq, pad2_eq]
  simp only [List.cons_append, List.nil_append]
  rw [dateFromIsoformat]
  rw [← pad4_eq y, ← pad2_eq m, ← pad2_eq dd,
    parseDigits_pad4 hy, parseDigits_pad2 hm, parseDigits_pad2 hd]
  simp only [if_pos (show ('-' = '-' ∧ '-' = '-') from ⟨rfl, rfl⟩)]
  rw [if_pos (show (PyDate.mk y m dd).Valid from ⟨hy1, hy2, hm1, hm2, hd1, hd2⟩)]
  simp only [and_self, if_true]

/-- Round trip of the datetime codec: decoding the adapter-stored text of
any constructor-valid datetime gives back that datetime exactly, including
its microsecond field. -/
theorem datetimeFromIsoformat_isoformat {t : PyDatetime} (h : t.Valid) :
    datetimeFromIsoformat t.isoformat = some t := by
  obtain ⟨y, m, dd, hh, mi, ss, f⟩ := t
  have hvalid : (PyDatetime.mk y m dd hh mi ss f).Valid := h
  obtain ⟨⟨hy1, hy2, hm1, hm2, hd1, hd2⟩, hh1, hmi1, hss1, hf1⟩ := h
  dsimp only at hy1 hy2 hm1 hm2 hd1 hd2 hh1 hmi1 hss1 hf1
  have hle := daysInMonth_le y m
  have py : parseDigits (pad4 y) = some y := parseDigits_pad4 (by omega)
  have pm : parseDigits (pad2 m) = some m := parseDigits_pad2 (by omega)
  have pd : parseDigits (pad2 dd) = some dd := parseDigits_pad2 (by omega)
  have ph : parseDigits (pad2 hh) = some hh := parseDigits_pad2 (by omega)
  have pmi : parseDigits (pad2 mi) = some mi := parseDigits_pad2 (by omega)
  have ps : parseDigits (pad2 ss) = some ss := parseDigits_pad2 (by omega)
  have pf : parseDigits (pad6 f) = some f := parseDigits_pad6 (by omega)
  have hlen : (pad6 f).length = 6 := padDigits_length 6 f
  rw [pad4_eq] at py
  rw [pad2_eq] at pm pd ph pmi ps
  by_cases hf : f = 0
  · subst hf
    simp [PyDatetime.isoformat, datetimeFromIsoformat, pad4_eq, pad2_eq,
      py, pm, pd, ph, pmi, ps, hvalid]
  · simp [PyDatetime.isoformat, datetimeFromIsoformat, hf, pad4_eq, pad2_eq,
      py, pm, pd, ph, pmi, ps, pf, hlen, hvalid]

/-- Decoding inverts the driver's parameter adaptation on every supported
well-typed value. -/
theorem decodeField_adaptVal {t : PyAnnot} {v : PyVal} (h : WellTypedVal t v) :
    decodeField t (adaptVal v) = some v := by
  cases h with
  | int i => rfl
  | str s => rfl
  | float b => rfl
  | datetime hv =>
    simp [adaptVal, decodeField, datetimeFromIsoformat_isoformat hv]
  | date hv =>
    simp [adaptVal, decodeField, dateFromIsoformat_isoformat hv]

theorem getattr_cons_ne {a : String × PyVal} {attrs : List (String × PyVal)}
    {pkv : Option Int} {name : String} (h : a.1 ≠ name) :
    PyObj.getattr ⟨pkv, a :: attrs⟩ name = PyObj.getattr ⟨pkv, attrs⟩ name := by
  simp [PyObj.getattr, List.find?_cons, h]

theorem encodeVals_getattr_skip {fields : List (String × PyAnnot)}
    {a : String × PyVal} {attrs : List (String × PyVal)} {pkv : Option Int}
    (h : ∀ f ∈ fields, (f : String × PyAnnot).1 ≠ a.1) :
    encodeVals fields ⟨pkv, a :: attrs⟩ = encodeVals fields ⟨pkv, attrs⟩ := by
  induction fields with
  | nil => rfl
  | cons f fs ih =>
    have hf : a.1 ≠ f.1 := fun hc => h f (List.mem_cons_self f fs) hc.symm
    have := ih (fun g hg => h g (List.mem_cons_of_mem f hg))
    simp [encodeVals, getattr_cons_ne hf, this]

/-- Reading `[getattr(obj, x) for x in self.fields]` off a faithful
instance yields exactly the attribute values, in order. -/
theorem encodeVals_instantiated {fields : List (String × PyAnnot)} {obj : PyObj}
    (h : List.Forall₂
      (fun (f : String × PyAnnot) (a : String × PyVal) => a.1 = f.1)
      fields obj.attrs)
    (hnodup : (fields.map Prod.fst).Nodup) :
    encodeVals fields obj = some (obj.attrs.map Prod.snd) := by
  obtain ⟨pkv, attrs⟩ := obj
  dsimp only at h ⊢
  induction h with
  | nil => rfl
  | @cons f a fs as hfa hrest ih =>
    simp only [List.map_cons, List.nodup_cons] at hnodup
    obtain ⟨hnotin, hnd⟩ := hnodup
    have hget : PyObj.getattr ⟨pkv, a :: as⟩ f.1 = some a.2 := by
      simp [PyObj.getattr, List.find?_cons, hfa]
    have hskip : encodeVals fs ⟨pkv, a :: as⟩ = encodeVals fs ⟨pkv, as⟩ :=
      encodeVals_getattr_skip (fun g hg => by
        rw [hfa]
        exact fun hc => hnotin (hc ▸ List.mem_map_of_mem Prod.fst hg))
    simp [encodeVals, hget, hskip, ih hnd]

/-- Decoding the adapter-converted values of a well-typed record rebuilds
exactly its attribute list. -/
theorem decodeRowVals_adaptVal {fields : List (String × PyAnnot)}
    {attrs : List (String × PyVal)}
    (h : List.Forall₂ (fun (f : String × PyAnnot) (a : String × PyVal) =>
      a.1 = f.1 ∧ WellTypedVal f.2 a.2) fields attrs) :
    decodeRowVals fields ((attrs.map Prod.snd).map adaptVal) = some attrs := by
  induction h with
  | nil => rfl
  | @cons f a fs as hfa hrest ih =>
    obtain ⟨hname, hwt⟩ := hfa
    have hpair : (f.1, a.2) = a := by rw [← hname]
    rw [List.map_map] at ih
    simp [decodeRowVals, decodeField_adaptVal hwt, ih, hpair]

theorem agreesAtClaimPrecision_refl (v : PyVal) : agreesAtClaimPrecision v v := by
  cases v <;> rfl

theorem sampleObj_instantiates : Instantiates customFields sampleObj :=
  .cons ⟨rfl, .int 1337⟩ (.cons ⟨rfl, .str _⟩
    (.cons ⟨rfl, .datetime (by decide)⟩
      (.cons ⟨rfl, .date (by decide)⟩ .nil)))

/-! ## The claims -/

/-- C1, counterexample: the claim sends date-only annotations to the TEXT
fallback, but `_resolve_type` answers TIMESTAMP on `date`, because
`datetime` is a subclass of `date` and the probe
`issubclass(datetime, obj_type)` fires. -/
theorem resolveType_date_not_text :
    resolveType (PyAnnot.cls .date) = "TIMESTAMP"
      ∧ resolveType (PyAnnot.cls .date) ≠ "TEXT" := by
  decide

/-- C1, amended: resolution is first-match-wins over the probes in order
string, int, float, datetime — string-like → TEXT, integral → INTEGER,
floating-point → REAL, timestamp-with-time → TIMESTAMP — but a date-only
annotation also resolves to TIMESTAMP (the datetime probe fires on it),
while boolean and unrecognized annotations fall back to TEXT. -/
theorem resolveType_spec :
    resolveType (.cls .str) = "TEXT"
    ∧ resolveType (.cls .int) = "INTEGER"
    ∧ resolveType (.cls .float) = "REAL"
    ∧ resolveType (.cls .datetime) = "TIMESTAMP"
    ∧ resolveType (.cls .date) = "TIMESTAMP"
    ∧ resolveType (.cls .bool) = "TEXT"
    ∧ resolveType (.cls .listCls) = "TEXT"
    ∧ resolveType (.cls .noneType) = "TEXT"
    ∧ resolveType (.cls .unionTypeCls) = "TEXT"
    ∧ resolveType (.cls .object) = "TEXT"
    ∧ (∀ n : String, resolveType (.cls (.custom n)) = "TEXT")
    ∧ resolveType (.union [.int, .str]) = "TEXT"
    ∧ resolveType (.union [.float, .int]) = "INTEGER" := by
  refine ⟨rfl, rfl, rfl, rfl, rfl, rfl, rfl, rfl, rfl, rfl, ?_, rfl, rfl⟩
  intro n
  rfl

/-- C2: decoding the encoded row of any record over the supported field
types reconstructs the record — the rebuilt record carries the row's key
as `pk`, and its fields agree with the original exactly for integers,
strings, floats and dates, and to (at least) one-second precision for
datetime fields. -/
theorem decode_encode_roundtrip {fields : List (String × PyAnnot)}
    {obj : PyObj} (hinst : Instantiates fields obj)
    (hnodup : (fields.map Prod.fst).Nodup) (pkv : Int) :
    ∃ vals obj',
      encodeVals fields obj = some vals
      ∧ generateObject fields (pkv, vals.map adaptVal) = some obj'
      ∧ obj'.pk = some pkv
      ∧ List.Forall₂ (fun (a b : String × PyVal) =>
          b.1 = a.1 ∧ agreesAtClaimPrecision a.2 b.2) obj.attrs obj'.attrs := by
  refine ⟨obj.attrs.map Prod.snd, ⟨some pkv, obj.attrs⟩, ?_, ?_, rfl, ?_⟩
  · exact encodeVals_instantiated (hinst.imp (fun _ _ h => h.1)) hnodup
  · have hd := decodeRowVals_adaptVal hinst
    rw [List.map_map] at hd
    simp [generateObject, hd]
  · exact List.forall₂_same.mpr (fun a _ => ⟨rfl, agreesAtClaimPrecision_refl a.2⟩)

/-- C2, witness: the round trip evaluated on the concrete `Custom` record
(whose datetime has a 500000-microsecond component) at key 7. -/
theorem decode_encode_roundtrip_witness :
    ∃ vals obj',
      encodeVals customFields sampleObj = some vals
      ∧ generateObject customFields (7, vals.map adaptVal) = some obj'
      ∧ obj'.pk = some 7
      ∧ List.Forall₂ (fun (a b : String × PyVal) =>
          b.1 = a.1 ∧ agreesAtClaimPrecision a.2 b.2)
          sampleObj.attrs obj'.attrs :=
  decode_encode_roundtrip sampleObj_instantiates (by decide) 7

/-- C3: `add` on a record with nonzero `pk` fails with the invalid-argument
error carrying the offending record, whatever the field values, and leaves
the store unchanged; on a record with `pk == 0` it appends the adapted row
under the store-generated key, writes that key into the record's `pk`, and
returns the same identifier. -/
theorem add_pk_contract (repo : Repo) (st : Store) (obj : PyObj) :
    (∀ k : Int, obj.pk = some k → k ≠ 0 →
      repo.add st obj = (st, .error (.addFilledPk obj)))
    ∧ (obj.pk = some 0 → ∀ vals, encodeVals repo.fields obj = some vals →
      repo.add st obj =
        (⟨st.rows ++ [(st.freshId, vals.map adaptVal)]⟩,
          .ok ({ obj with pk := some st.freshId }, some st.freshId))) := by
  constructor
  · intro k hk hne
    simp [Repo.add, hk, hne]
  · intro hpk vals hvals
    simp [Repo.add, hpk, hvals]

/-- C3, witness: the contract evaluated on the concrete `Custom` record,
with `pk = 5` (rejected, store untouched) and `pk = 0` (inserted at the
fresh key 1, which is written back and returned). -/
theorem add_pk_contract_witness :
    customRepo.add emptyStore sampleObjPk5
        = (emptyStore, .error (.addFilledPk sampleObjPk5))
    ∧ customRepo.add emptyStore sampleObj
        = (⟨emptyStore.rows ++ [(emptyStore.freshId, sampleVals.map adaptVal)]⟩,
            .ok ({ sampleObj with pk := some emptyStore.freshId },
              some emptyStore.freshId)) :=
  ⟨(add_pk_contract customRepo emptyStore sampleObjPk5).1 5 rfl (by decide),
    (add_pk_contract customRepo emptyStore sampleObj).2 rfl sampleVals rfl⟩

/-- C4: `update` on a record whose key is absent from the store, and
`delete` on an absent key, both fail with the explicit unknown-primary-key
error — zero rows affected is surfaced, not swallowed — and the store
after the failed call is the store before it. -/
theorem update_delete_notfound (repo : Repo) (st : Store) (obj : PyObj)
    (k : Int) (hobj : obj.pk = some k)
    (hvals : (encodeVals repo.fields obj).isSome = true)
    (habs : ∀ r ∈ st.rows, r.1 ≠ k)
    (pkd : Int) (habsd : ∀ r ∈ st.rows, r.1 ≠ pkd) :
    repo.update st obj = (st, obj, .error .updateUnknownPk)
    ∧ repo.delete st pkd = (st, .error .deleteUnknownPk) := by
  constructor
  · obtain ⟨vals, hv⟩ := Option.isSome_iff_exists.mp hvals
    have hcount : st.rows.countP (fun r => r.1 == k) = 0 :=
      List.countP_eq_zero.mpr (fun r hr => by simp [habs r hr])
    simp [Repo.update, hobj, hv, hcount]
  · have hcount : st.rows.countP (fun r => r.1 == pkd) = 0 :=
      List.countP_eq_zero.mpr (fun r hr => by simp [habsd r hr])
    simp [Repo.delete, hcount]

/-- C4, witness: updating the record keyed 5 and deleting key -1 against
the store holding only key 1 both fail and leave the store as it was. -/
theorem update_delete_notfound_witness :
    customRepo.update oneRowStore sampleObjPk5
        = (oneRowStore, sampleObjPk5, .error .updateUnknownPk)
    ∧ customRepo.delete oneRowStore (-1)
        = (oneRowStore, .error .deleteUnknownPk) :=
  update_delete_notfound customRepo oneRowStore sampleObjPk5 5 rfl (by decide)
    (by decide) (-1) (by decide)

/-- C5: `get` on a key with no matching row answers the explicit absent
value `none` inside a successful result — not an error — and on a matching
row answers the codec-built record: fields decoded positionally against
the descriptor in order, `pk` set from the row's first column. -/
theorem get_spec (repo : Repo) (st : Store) (k : Int) :
    (st.rows.find? (fun r => r.1 == k) = none → repo.get st k = .ok none)
    ∧ (∀ row, st.rows.find? (fun r => r.1 == k) = some row →
      ∀ args, decodeRowVals repo.fields row.2 = some args →
        repo.get st k = .ok (some ⟨some row.1, args⟩)) := by
  constructor
  · intro h
    simp [Repo.get, h]
  · intro row hrow args hargs
    simp [Repo.get, hrow, generateObject, hargs]

/-- C5, witness: against the one-row store, key -1 yields the absent value
and key 1 yields the decoded sample record. -/
theorem get_spec_witness :
    customRepo.get oneRowStore (-1) = .ok none
    ∧ customRepo.get oneRowStore 1 = .ok (some ⟨some 1, sampleAttrs⟩) :=
  ⟨(get_spec customRepo oneRowStore (-1)).1 (by decide),
    (get_spec customRepo oneRowStore 1).2 sampleRow (by decide) sampleAttrs
      (by decide)⟩

/-- C6: repository construction fails on a record type with no `pk`
annotation (the `pop('pk')` KeyError) and on a type whose only annotation
is `pk` (the generated CREATE TABLE carries an empty column item, which
the store rejects as a syntax error); both are raised in `__init__`, so no
repository value exists. -/
theorem init_config_errors (cls : PyClassDef) :
    (cls.annots.find? (fun p => p.1 == "pk") = none →
      SQLiteRepository.init cls = .error .keyErrorPk)
    ∧ (∀ t : PyAnnot, cls.annots = [("pk", t)] →
      SQLiteRepository.init cls = .error .operationalError) := by
  constructor
  · intro h
    simp [SQLiteRepository.init, h]
  · intro t h
    obtain ⟨nm, annots⟩ := cls
    dsimp only at h
    subst h
    rfl

/-- C6, witness: both degenerate record types evaluated concretely. -/
theorem init_config_errors_witness :
    SQLiteRepository.init noPkClass = .error .keyErrorPk
    ∧ SQLiteRepository.init onlyPkClass = .error .operationalError :=
  ⟨(init_config_errors noPkClass).1 (by decide),
    (init_config_errors onlyPkClass).2 (.cls .int) rfl⟩

theorem whereConditionsText_cons_ne_nil (k : String) (ks : List String) :
    whereConditionsText (k :: ks) ≠ [] := by
  have h4 : (" = ?".toList : List Char) ≠ [] := by decide
  cases ks with
  | nil =>
    simp only [whereConditionsText, List.map_cons, List.map_nil, joinWith]
    simp [h4]
  | cons k2 ks2 =>
    simp only [whereConditionsText, List.map_cons, joinWith]
    simp [h4]

/-- C7, counterexample: the claim quantifies over every present filter
mapping, but at the empty mapping `get_all` does not return the stored
records — it builds `SELECT ... WHERE ` with no conditions and errors —
refuting the claim at this input. -/
theorem get_all_empty_filter_refutes :
    customRepo.get_all oneRowStore (some []) = .error .operationalError
    ∧ customRepo.get_all oneRowStore (some []) ≠ .ok [⟨some 1, sampleAttrs⟩] := by
  constructor
  · rfl
  · intro hc
    rw [show customRepo.get_all oneRowStore (some [])
        = .error .operationalError from rfl] at hc
    exact Except.noConfusion hc

/-- C7, amended: for every present nonempty filter mapping whose keys name
table columns, `get_all` returns exactly the stored records every filter
entry matches by equality — entries AND-joined, keys taken from the filter
itself — in store order; and with no filter it returns every stored record
in store (insertion) order. -/
theorem get_all_spec (repo : Repo) (st : Store) :
    (∀ objs, rowsToObjs repo.fields st.rows = some objs →
      repo.get_all st none = .ok objs)
    ∧ (∀ w, w ≠ [] → (∀ kv ∈ w, repo.isColumn kv.1 = true) →
      ∀ objs,
        rowsToObjs repo.fields (st.rows.filter (fun row =>
          w.all (fun kv => columnValue repo row kv.1 == some (adaptVal kv.2))))
          = some objs →
        repo.get_all st (some w) = .ok objs) := by
  constructor
  · intro objs h
    simp [Repo.get_all, h]
  · intro w hne hcols objs h
    obtain ⟨kv0, w', rfl⟩ := List.exists_cons_of_ne_nil hne
    have htext : whereConditionsText (kv0.1 :: w'.map Prod.fst) ≠ [] :=
      whereConditionsText_cons_ne_nil kv0.1 (w'.map Prod.fst)
    have hany : ((kv0 :: w').any (fun kv => !repo.isColumn kv.1)) = false := by
      rw [List.any_eq_false]
      intro kv hkv
      simp [hcols kv hkv]
    simp only [List.all_cons] at h
    simp [Repo.get_all, htext, hany, h]

/-- C7, witness: over the two-row store, the no-filter query returns both
decoded records in insertion order, and the filter `field_int = 0` returns
exactly the first. -/
theorem get_all_spec_witness :
    customRepo.get_all twoRowStore none = .ok [objA, objB]
    ∧ customRepo.get_all twoRowStore (some [("field_int", .int 0)])
        = .ok [objA] :=
  ⟨(get_all_spec customRepo twoRowStore).1 [objA, objB] (by decide),
    (get_all_spec customRepo twoRowStore).2 [("field_int", .int 0)]
      (by decide) (by decide) [objA] (by decide)⟩

/-- C8: `update` never mutates the caller's record — the record after the
call is the record before it, so in particular its `pk` is unchanged on
every path (`get` receives no caller record at all; it builds a fresh
one from the row). -/
theorem update_preserves_record (repo : Repo) (st : Store) (obj : PyObj) :
    (repo.update st obj).2.1 = obj
    ∧ (repo.update st obj).2.1.pk = obj.pk := by
  have h : (repo.update st obj).2.1 = obj := by
    unfold Repo.update
    cases hpk : obj.pk with
    | none => rfl
    | some pkv =>
      cases hv : encodeVals repo.fields obj with
      | none => rfl
      | some vals =>
        dsimp only
        split <;> rfl
  exact ⟨h, by rw [h]⟩

/-- C9: `get_all` with a present but empty filter mapping does not return
the rows — the generated statement ends in `WHERE` with an empty
conditions text, which the store rejects as a syntax error. -/
theorem get_all_empty_filter_errors (repo : Repo) (st : Store) :
    repo.get_all st (some []) = .error .operationalError := rfl

/-- C10: `add` on an argument with no `pk` attribute at all reads the
`getattr` default `None`, which differs from 0, so it fails with the same
invalid-argument error (naming the argument) as a filled-`pk` record, and
the store is untouched. -/
theorem add_missing_pk (repo : Repo) (st : Store) (obj : PyObj)
    (h : obj.pk = none) :
    repo.add st obj = (st, .error (.addFilledPk obj)) := by
  simp [Repo.add, h]

/-- C10, witness: the sample record stripped of its `pk` attribute is
rejected by `add` exactly like a filled-`pk` one. -/
theorem add_missing_pk_witness :
    customRepo.add emptyStore sampleObjNoPk
      = (emptyStore, .error (.addFilledPk sampleObjNoPk)) :=
  add_missing_pk customRepo emptyStore sampleObjNoPk rfl

end Bookkeeper
